import Mathlib

/-!
Verification development for the scam-detection engine (src/engine.ts).

The engine exposes three entry points: analyzeText, analyzeLink and
analyzeForensics.  Each one talks to an external generative-AI gateway;
here the gateway reply (or its failure) is an explicit argument, so every
function below is a pure shallow embedding of the TypeScript control flow.

Modelling conventions:
- JS numbers used in the local arithmetic are embedded as Int (scores)
  and Rat (aspect ratios, GPS coordinates); all score constants in the
  source are integers and the ratio comparisons are idealized over Rat.
- Fields of the gateway reply that the source guards with a JS
  truthiness default (the x || d pattern) are embedded as Option with the
  corresponding jsNumOr / jsStrOr / jsArrOr helper; fields the source
  reads without a guard are embedded as plain values, matching the
  response schema that declares them required.
- A thrown JS exception is embedded as Except.error carrying a message.
-/

namespace ScamGuard

/-- types.ts: RiskLevel = 'Low' | 'Medium' | 'High'. -/
inductive RiskLevel where
  | Low
  | Medium
  | High
deriving DecidableEq

/-- types.ts: TemplateAnomaly bounding box plus label/severity.  The
severity produced by the gateway is an arbitrary string at runtime. -/
structure TemplateAnomaly where
  x : ℚ
  y : ℚ
  width : ℚ
  height : ℚ
  label : String
  severity : String
deriving DecidableEq

/-- types.ts: ScanResult.  layoutCheck is a plain string at runtime (the
source casts the gateway string without validating it), so it is embedded
as Option String; none models the field being absent (text/link modes). -/
structure ScanResult where
  riskLevel : RiskLevel
  score : Int
  explanation : String
  reasons : List String
  advice : List String
  layoutCheck : Option String
  anomalies : Option (List TemplateAnomaly)
deriving DecidableEq

/-- types.ts: ScanMode = 'text' | 'link' | 'image' | 'payment' | 'qr'. -/
inductive ScanMode where
  | text
  | link
  | image
  | payment
  | qr
deriving DecidableEq

/-- engine.ts: the caller-supplied metadata bag.  Every field is optional
in the source (a loosely structured object); absent fields are none /
false. -/
structure Metadata where
  software : Option String := none
  isAlteredTimestamp : Bool := false
  hasExif : Bool := false
  isScreenshot : Bool := false
  make : Option String := none
  model : Option String := none
  gpsLatitude : Option ℚ := none
  gpsLongitude : Option ℚ := none
deriving DecidableEq

/-- engine.ts: imageSize argument { width, height }. -/
structure ImageSize where
  width : ℚ
  height : ℚ
deriving DecidableEq

/-- JS (v || d) for a possibly-undefined number v: undefined and 0 are
falsy, every other number (negative included) is kept. -/
def jsNumOr (v : Option Int) (d : Int) : Int :=
  match v with
  | none => d
  | some n => if n = 0 then d else n

/-- JS (v || d) for a possibly-undefined string v: undefined and the empty
string are falsy. -/
def jsStrOr (v : Option String) (d : String) : String :=
  match v with
  | none => d
  | some s => if s = "" then d else s

/-- JS (v || d) for a possibly-undefined array v: an array is always
truthy, so only undefined falls back to the default. -/
def jsArrOr {α : Type} (v : Option (List α)) (d : List α) : List α :=
  v.getD d

/-- JS truthiness of a possibly-undefined string field. -/
def jsStrTruthy (v : Option String) : Bool :=
  match v with
  | none => false
  | some s => s != ""

/-- The whitespace class removed by JS String.prototype.trim (the ASCII
part, which covers the characters relevant here). -/
def isJsWhitespace (c : Char) : Bool :=
  c == ' ' || c == '\t' || c == '\n' || c == '\r' || c == '\x0b' || c == '\x0c'

/-- The guard !text.trim() of engine.ts line 40: the trimmed string is
empty exactly when every character is whitespace. -/
def jsTrimEmpty (s : String) : Bool :=
  s.data.all isJsWhitespace

/-- Occurrence of needle as a contiguous block at the head of hay. -/
def beginsWith : List Char → List Char → Bool
  | _, [] => true
  | [], _ :: _ => false
  | h :: hs, n :: ns => h == n && beginsWith hs ns

/-- Occurrence of needle as a contiguous block anywhere in hay. -/
def containsSeq (needle : List Char) : List Char → Bool
  | [] => needle.isEmpty
  | c :: t => beginsWith (c :: t) needle || containsSeq needle t

/-- engine.ts line 137: the case-insensitive regex
photoshop|canva|picsart|snapseed|editor|paint|express applied to
metadata.software, embedded as a lowercase substring test. -/
def manipulationToolsTest (s : String) : Bool :=
  let l := s.data.map Char.toLower
  ["photoshop", "canva", "picsart", "snapseed", "editor", "paint", "express"].any
    (fun t => containsSeq t.data l)

/-- JS Number.prototype.toFixed(2): sign split, then round the magnitude
to the nearest hundredth with ties going up. -/
def toFixed2 (q : ℚ) : String :=
  let sgn := if q < 0 then "-" else ""
  let n : ℤ := round (|q| * 100)
  let ip := n.toNat / 100
  let fp := n.toNat % 100
  sgn ++ toString ip ++ "." ++ (if fp < 10 then "0" else "") ++ toString fp

/-- engine.ts line 140. -/
def softwareReason (sw : String) : String :=
  "Modification Signature: File processed via " ++ sw ++ "."

/-- engine.ts line 146. -/
def timestampReason : String :=
  "Epoch Discrepancy: Metadata suggests creation date was altered post-capture."

/-- engine.ts line 151. -/
def exifReason : String :=
  "Inconsistent Metadata: File claims to be a screenshot but contains camera lens data."

/-- engine.ts line 155. -/
def gpsReason (lat lon : ℚ) : String :=
  "Geolocation Marker Found: " ++ toFixed2 lat ++ ", " ++ toFixed2 lon

/-- engine.ts line 166. -/
def geometricMismatchReason (platform : String) : String :=
  "Geometric Mismatch: Screenshot dimensions do not match the " ++ platform ++ " standard."

/-- The message of the TypeError raised when metadata.gpsLongitude is
undefined while metadata.gpsLatitude is present (engine.ts line 155). -/
def gpsUndefinedError : String :=
  "TypeError: metadata.gpsLongitude is undefined"

/-- engine.ts: a PLATFORM_TEMPLATES registry entry.  Only aspectRatios is
used in local arithmetic; the other fields feed prompt construction. -/
structure PlatformTemplate where
  primaryColor : String
  aspectRatios : List ℚ
  fontFamily : String
  branding : String
  structureDesc : String
deriving DecidableEq

/-- engine.ts lines 5-34: the static PLATFORM_TEMPLATES record, keyed by
exact platform name; unknown names have no entry.  (The TS field named
structure is structureDesc here, since structure is a Lean keyword.) -/
def PLATFORM_TEMPLATES (platform : String) : Option PlatformTemplate :=
  if platform = "Google Pay" then
    some { primaryColor := "#4285F4"
           aspectRatios := [19.5 / 9, 20 / 9, 16 / 9]
           fontFamily := "Product Sans / Google Sans"
           branding := "Google Logo top center/left"
           structureDesc := "Clean material design, pill buttons" }
  else if platform = "PhonePe" then
    some { primaryColor := "#5f259f"
           aspectRatios := [19.5 / 9, 20 / 9]
           fontFamily := "Roboto / Custom Sans"
           branding := "Purple header gradient"
           structureDesc := "Transaction ID at bottom, large checkmark" }
  else if platform = "Paytm" then
    some { primaryColor := "#00baf2"
           aspectRatios := [19.5 / 9, 20 / 9, 18 / 9]
           fontFamily := "Paytm Sans / Inter"
           branding := "Light blue accents"
           structureDesc := "Payment Success badge top, order details below" }
  else if platform = "PayPal" then
    some { primaryColor := "#003087"
           aspectRatios := [16 / 9, 19.5 / 9]
           fontFamily := "PayPal Sans / Futura"
           branding := "Double P logo top center"
           structureDesc := "Minimalist, center-aligned transaction amount" }
  else none

/-- engine.ts lines 136-142: the software / manipulation-tool rule.  The
outer JS truthiness guard on metadata.software keeps empty strings out. -/
def softwareRule (md : Metadata) : Int × List String :=
  match md.software with
  | none => (0, [])
  | some sw =>
    if sw != "" && manipulationToolsTest sw then (40, [softwareReason sw]) else (0, [])

/-- engine.ts lines 144-147: the altered-timestamp rule. -/
def timestampRule (md : Metadata) : Int × List String :=
  if md.isAlteredTimestamp then (30, [timestampReason]) else (0, [])

/-- engine.ts lines 149-152: the EXIF/screenshot contradiction rule. -/
def exifRule (md : Metadata) : Int × List String :=
  if md.hasExif && md.isScreenshot && (jsStrTruthy md.make || jsStrTruthy md.model) then
    (15, [exifReason])
  else (0, [])

/-- engine.ts lines 154-156: the GPS rule.  It adds no score; it reads
metadata.gpsLongitude.toFixed(2) guarded only by gpsLatitude being
defined, so it throws when gpsLongitude is absent. -/
def gpsRule (md : Metadata) : Except String (List String) :=
  match md.gpsLatitude with
  | none => Except.ok []
  | some lat =>
    match md.gpsLongitude with
    | none => Except.error gpsUndefinedError
    | some lon => Except.ok [gpsReason lat lon]

/-- engine.ts lines 134-157: the metadata audit block — the four rules
applied in source order, accumulating score and reasons.  A missing
metadata bag skips the whole block. -/
def metadataAudit : Option Metadata → Except String (Int × List String)
  | none => Except.ok (0, [])
  | some md =>
    match gpsRule md with
    | Except.error e => Except.error e
    | Except.ok gpsReasons =>
      Except.ok
        ((softwareRule md).1 + (timestampRule md).1 + (exifRule md).1,
         (softwareRule md).2 ++ (timestampRule md).2 ++ (exifRule md).2 ++ gpsReasons)

/-- engine.ts lines 159-168: the structural aspect-ratio audit.  Skipped
entirely when the platform has no registry entry. -/
def geometryAudit (platform : String) (imageSize : ImageSize) : Int × List String :=
  match PLATFORM_TEMPLATES platform with
  | none => (0, [])
  | some template =>
    let ratioVal := imageSize.height / imageSize.width
    let isStandard := template.aspectRatios.any (fun r => decide (|ratioVal - r| < 0.1))
    if isStandard then (0, []) else (20, [geometricMismatchReason platform])

/-- The full local heuristic phase of analyzeForensics: metadata audit
followed by the geometry audit (score += and reasons.push in source). -/
def heuristicPhase (metadata : Option Metadata) (platform : String)
    (imageSize : ImageSize) : Except String (Int × List String) :=
  match metadataAudit metadata with
  | Except.error e => Except.error e
  | Except.ok (s, rs) =>
    Except.ok (s + (geometryAudit platform imageSize).1,
               rs ++ (geometryAudit platform imageSize).2)

/-- JS [...new Set(l)] — first-occurrence deduplication — with an
explicit seen accumulator. -/
def jsSetDedupGo (seen : List String) : List String → List String
  | [] => []
  | x :: xs =>
    if x ∈ seen then jsSetDedupGo seen xs else x :: jsSetDedupGo (x :: seen) xs

/-- engine.ts lines 224/256: the [...new Set(reasons)] spread. -/
def jsSetDedup (l : List String) : List String :=
  jsSetDedupGo [] l

/-- Gateway reply for the text mode (response schema of engine.ts lines
49-62).  score carries the JS || guard in the source, hence Option. -/
structure TextAiResult where
  score : Option Int := none
  explanation : String := ""
  reasons : List String := []
  advice : List String := []
deriving DecidableEq

/-- Gateway reply for the link mode (response schema of engine.ts lines
90-99). -/
structure LinkAiResult where
  score : Option Int := none
  reasons : List String := []
deriving DecidableEq

/-- Gateway reply for the forensic deep-vision call (response schema of
engine.ts lines 195-222).  Every field the source reads is guarded with
||, hence all Option. -/
structure AiForensicResult where
  aiScore : Option Int := none
  aiReasons : Option (List String) := none
  aiExplanation : Option String := none
  layoutStatus : Option String := none
  detectedAnomalies : Option (List TemplateAnomaly) := none
deriving DecidableEq

/-- Outcome of the optional deep-vision step of analyzeForensics:
no image supplied (the gateway is not consulted), the gateway call or
JSON parse threw (caught by the source), or a parsed reply. -/
inductive DeepVision where
  | noImage
  | failed
  | ok (r : AiForensicResult)
deriving DecidableEq

/-- engine.ts analyzeText: empty/whitespace input short-circuits; a
gateway success is thresholded at 70/35 and clamped above at 100; a
gateway failure yields the fixed degraded result. -/
def analyzeText (text : String) (country : String)
    (gateway : Except Unit TextAiResult) : ScanResult :=
  if jsTrimEmpty text then
    { riskLevel := RiskLevel.Low, score := 0, explanation := "Please enter a message.",
      reasons := [], advice := [], layoutCheck := none, anomalies := none }
  else
    match gateway with
    | Except.ok aiResult =>
      let finalScore := jsNumOr aiResult.score 0
      { riskLevel :=
          if 70 < finalScore then RiskLevel.High
          else if 35 < finalScore then RiskLevel.Medium
          else RiskLevel.Low
        score := min finalScore 100
        explanation := aiResult.explanation
        reasons := aiResult.reasons
        advice := aiResult.advice
        layoutCheck := none
        anomalies := none }
    | Except.error _ =>
      { riskLevel := RiskLevel.Low, score := 0, explanation := "Analysis failed.",
        reasons := [], advice := [], layoutCheck := none, anomalies := none }

/-- engine.ts analyzeLink: a gateway success is thresholded at 70/35 and
returned with the score NOT clamped (the source has no Math.min here); a
gateway failure yields the fixed degraded result with explanation
"Link analysis failed.". -/
def analyzeLink (url : String) (country : String)
    (gateway : Except Unit LinkAiResult) : ScanResult :=
  match gateway with
  | Except.ok aiResult =>
    let score := jsNumOr aiResult.score 0
    { riskLevel :=
        if 70 < score then RiskLevel.High
        else if 35 < score then RiskLevel.Medium
        else RiskLevel.Low
      score := score
      explanation := "Domain audit complete for " ++ url ++ "."
      reasons := aiResult.reasons
      advice := ["Check for subtle misspellings in the URL."]
      layoutCheck := none
      anomalies := none }
  | Except.error _ =>
    { riskLevel := RiskLevel.Low, score := 0, explanation := "Link analysis failed.",
      reasons := [], advice := [], layoutCheck := none, anomalies := none }

/-- engine.ts analyzeForensics: local heuristics (which can throw in the
GPS rule), then the optional deep-vision merge via max, else the
heuristic-only fallback with its own 65/30 thresholds and the
score-derived layoutCheck. -/
def analyzeForensics (mode : ScanMode) (metadata : Option Metadata)
    (imageSize : ImageSize) (country : String) (platform : String)
    (deepVision : DeepVision) : Except String ScanResult :=
  match heuristicPhase metadata platform imageSize with
  | Except.error e => Except.error e
  | Except.ok (score0, reasons0) =>
    match deepVision with
    | DeepVision.ok aiResult =>
      let score := max score0 (jsNumOr aiResult.aiScore 0)
      let reasons := reasons0 ++ jsArrOr aiResult.aiReasons []
      let anomalies := jsArrOr aiResult.detectedAnomalies []
      let layoutCheck := jsStrOr aiResult.layoutStatus "Suspicious"
      Except.ok
        { riskLevel :=
            if 70 < score then RiskLevel.High
            else if 35 < score then RiskLevel.Medium
            else RiskLevel.Low
          score := min score 100
          explanation := jsStrOr aiResult.aiExplanation "Forensic vision audit complete."
          reasons := jsSetDedup reasons
          advice := ["Cross-verify this Transaction ID in your banking app.",
                     "Check for blurred edges around the currency symbol.",
                     "Check if the fonts are consistent across the entire screen."]
          layoutCheck := some layoutCheck
          anomalies := some anomalies }
    | _ =>
      let layoutCheck0 := "N/A"
      let layoutCheck :=
        if layoutCheck0 = "N/A" then
          if 60 < score0 then "Failed" else if 25 < score0 then "Suspicious" else "Passed"
        else layoutCheck0
      Except.ok
        { riskLevel :=
            if 65 < score0 then RiskLevel.High
            else if 30 < score0 then RiskLevel.Medium
            else RiskLevel.Low
          score := min score0 100
          explanation := "Basic heuristic forensic audit complete."
          reasons := jsSetDedup reasons0
          advice := ["Verify the transaction manually.", "Check for editing artifacts."]
          layoutCheck := some layoutCheck
          anomalies := some [] }

/-! ### Spec-side rule predicates

Boolean predicates naming the firing condition of each heuristic rule, in
the spec's vocabulary; the lemmas below relate them to the source rules. -/

/-- Spec rule 1: metadata.software is truthy and matches the editing-tool
pattern. -/
def editingToolFires (md : Metadata) : Bool :=
  match md.software with
  | none => false
  | some sw => sw != "" && manipulationToolsTest sw

/-- Spec rule 3: hasExif and isScreenshot with a make or model present. -/
def exifContradictionFires (md : Metadata) : Bool :=
  md.hasExif && md.isScreenshot && (jsStrTruthy md.make || jsStrTruthy md.model)

/-- Spec rule 5: the platform is in the registry and no accepted aspect
ratio is within absolute tolerance 0.1 of height/width. -/
def geometryMismatchFires (platform : String) (sz : ImageSize) : Bool :=
  match PLATFORM_TEMPLATES platform with
  | none => false
  | some template =>
    !(template.aspectRatios.any (fun r => decide (|sz.height / sz.width - r| < 0.1)))

/-- Spec rule 4: the informational GPS reasons (no score), one entry when
gpsLatitude is present. -/
def gpsReasonsOf (md : Metadata) : List String :=
  match md.gpsLatitude, md.gpsLongitude with
  | some lat, some lon => [gpsReason lat lon]
  | _, _ => []

/-- Index of the first occurrence of a in a list (length of the list when
absent); the measure used to state first-occurrence ordering. -/
def firstIdx (a : String) : List String → Nat
  | [] => 0
  | b :: l => if a = b then 0 else firstIdx a l + 1

/-- The risk-level table for the text, link and AI-assisted forensic
modes: High above 70, Medium above 35, else Low. -/
def mainThresholds (r : ScanResult) : Prop :=
  (r.riskLevel = RiskLevel.High ↔ 70 < r.score) ∧
  (r.riskLevel = RiskLevel.Medium ↔ 35 < r.score ∧ r.score ≤ 70) ∧
  (r.riskLevel = RiskLevel.Low ↔ r.score ≤ 35)

/-- The risk-level table for the forensic heuristic-only fallback: High
above 65, Medium above 30, else Low. -/
def fallbackThresholds (r : ScanResult) : Prop :=
  (r.riskLevel = RiskLevel.High ↔ 65 < r.score) ∧
  (r.riskLevel = RiskLevel.Medium ↔ 30 < r.score ∧ r.score ≤ 65) ∧
  (r.riskLevel = RiskLevel.Low ↔ r.score ≤ 30)

/-! ### Helper lemmas -/

lemma softwareRule_eq (md : Metadata) :
    softwareRule md =
      (if editingToolFires md then 40 else 0,
       if editingToolFires md then [softwareReason (md.software.getD "")] else []) := by
  unfold softwareRule editingToolFires
  cases md.software with
  | none => simp
  | some sw =>
    by_cases h : (sw != "" && manipulationToolsTest sw) = true <;> simp [h]

lemma timestampRule_eq (md : Metadata) :
    timestampRule md =
      (if md.isAlteredTimestamp then 30 else 0,
       if md.isAlteredTimestamp then [timestampReason] else []) := by
  unfold timestampRule
  by_cases h : md.isAlteredTimestamp <;> simp [h]

lemma exifRule_eq (md : Metadata) :
    exifRule md =
      (if exifContradictionFires md then 15 else 0,
       if exifContradictionFires md then [exifReason] else []) := by
  unfold exifRule exifContradictionFires
  by_cases h : (md.hasExif && md.isScreenshot && (jsStrTruthy md.make || jsStrTruthy md.model)) = true <;>
    simp [h]

lemma geometryAudit_eq (platform : String) (sz : ImageSize) :
    geometryAudit platform sz =
      (if geometryMismatchFires platform sz then 20 else 0,
       if geometryMismatchFires platform sz then [geometricMismatchReason platform] else []) := by
  unfold geometryAudit geometryMismatchFires
  cases PLATFORM_TEMPLATES platform with
  | none => simp
  | some template =>
    by_cases h :
        (template.aspectRatios.any (fun r => decide (|sz.height / sz.width - r| < 0.1))) = true <;>
      simp [h]

lemma gpsRule_ok (md : Metadata) (hgps : md.gpsLatitude = none ∨ md.gpsLongitude ≠ none) :
    gpsRule md = Except.ok (gpsReasonsOf md) := by
  unfold gpsRule gpsReasonsOf
  cases hla : md.gpsLatitude with
  | none => simp
  | some lat =>
    cases hlo : md.gpsLongitude with
    | none =>
      rcases hgps with h | h
      · rw [hla] at h; cases h
      · rw [hlo] at h; cases h rfl
    | some lon => simp

lemma metadataAudit_ok (md : Metadata)
    (hgps : md.gpsLatitude = none ∨ md.gpsLongitude ≠ none) :
    metadataAudit (some md) =
      Except.ok
        ((softwareRule md).1 + (timestampRule md).1 + (exifRule md).1,
         (softwareRule md).2 ++ (timestampRule md).2 ++ (exifRule md).2 ++ gpsReasonsOf md) := by
  simp only [metadataAudit]
  rw [gpsRule_ok md hgps]

lemma heuristicPhase_of_audit (metadata : Option Metadata) (platform : String)
    (sz : ImageSize) (s : Int) (rs : List String)
    (hma : metadataAudit metadata = Except.ok (s, rs)) :
    heuristicPhase metadata platform sz =
      Except.ok (s + (geometryAudit platform sz).1, rs ++ (geometryAudit platform sz).2) := by
  unfold heuristicPhase
  rw [hma]

lemma heuristicPhase_err (metadata : Option Metadata) (platform : String)
    (sz : ImageSize) (e : String)
    (hma : metadataAudit metadata = Except.error e) :
    heuristicPhase metadata platform sz = Except.error e := by
  unfold heuristicPhase
  rw [hma]

lemma analyzeForensics_err (m : ScanMode) (metadata : Option Metadata) (sz : ImageSize)
    (c p : String) (dv : DeepVision) (e : String)
    (hh : heuristicPhase metadata p sz = Except.error e) :
    analyzeForensics m metadata sz c p dv = Except.error e := by
  unfold analyzeForensics
  rw [hh]

lemma analyzeForensics_ai_eq (m : ScanMode) (metadata : Option Metadata) (sz : ImageSize)
    (c p : String) (ai : AiForensicResult) (hs : Int) (hr : List String)
    (hh : heuristicPhase metadata p sz = Except.ok (hs, hr)) :
    analyzeForensics m metadata sz c p (DeepVision.ok ai) =
      Except.ok
        { riskLevel :=
            if 70 < max hs (jsNumOr ai.aiScore 0) then RiskLevel.High
            else if 35 < max hs (jsNumOr ai.aiScore 0) then RiskLevel.Medium
            else RiskLevel.Low
          score := min (max hs (jsNumOr ai.aiScore 0)) 100
          explanation := jsStrOr ai.aiExplanation "Forensic vision audit complete."
          reasons := jsSetDedup (hr ++ jsArrOr ai.aiReasons [])
          advice := ["Cross-verify this Transaction ID in your banking app.",
                     "Check for blurred edges around the currency symbol.",
                     "Check if the fonts are consistent across the entire screen."]
          layoutCheck := some (jsStrOr ai.layoutStatus "Suspicious")
          anomalies := some (jsArrOr ai.detectedAnomalies []) } := by
  unfold analyzeForensics
  rw [hh]

lemma analyzeForensics_fallback_eq (m : ScanMode) (metadata : Option Metadata)
    (sz : ImageSize) (c p : String) (dv : DeepVision)
    (hdv : dv = DeepVision.noImage ∨ dv = DeepVision.failed)
    (hs : Int) (hr : List String)
    (hh : heuristicPhase metadata p sz = Except.ok (hs, hr)) :
    analyzeForensics m metadata sz c p dv =
      Except.ok
        { riskLevel :=
            if 65 < hs then RiskLevel.High
            else if 30 < hs then RiskLevel.Medium
            else RiskLevel.Low
          score := min hs 100
          explanation := "Basic heuristic forensic audit complete."
          reasons := jsSetDedup hr
          advice := ["Verify the transaction manually.", "Check for editing artifacts."]
          layoutCheck :=
            some (if 60 < hs then "Failed" else if 25 < hs then "Suspicious" else "Passed")
          anomalies := some [] } := by
  rcases hdv with h | h <;> subst h <;> (unfold analyzeForensics; rw [hh]) <;> rfl

lemma softwareRule_fst_nonneg (md : Metadata) : 0 ≤ (softwareRule md).1 := by
  rw [softwareRule_eq]
  split <;> simp

lemma timestampRule_fst_nonneg (md : Metadata) : 0 ≤ (timestampRule md).1 := by
  rw [timestampRule_eq]
  split <;> simp

lemma exifRule_fst_nonneg (md : Metadata) : 0 ≤ (exifRule md).1 := by
  rw [exifRule_eq]
  split <;> simp

lemma geometryAudit_fst_nonneg (platform : String) (sz : ImageSize) :
    0 ≤ (geometryAudit platform sz).1 := by
  rw [geometryAudit_eq]
  split <;> simp

lemma metadataAudit_fst_nonneg (metadata : Option Metadata) (s : Int) (rs : List String)
    (hma : metadataAudit metadata = Except.ok (s, rs)) : 0 ≤ s := by
  cases metadata with
  | none =>
    simp only [metadataAudit] at hma
    cases hma
    decide
  | some md =>
    simp only [metadataAudit] at hma
    cases hgr : gpsRule md with
    | error e => rw [hgr] at hma; cases hma
    | ok gr =>
      rw [hgr] at hma
      cases hma
      have h1 := softwareRule_fst_nonneg md
      have h2 := timestampRule_fst_nonneg md
      have h3 := exifRule_fst_nonneg md
      omega

lemma heuristicPhase_fst_nonneg (metadata : Option Metadata) (platform : String)
    (sz : ImageSize) (hs : Int) (hr : List String)
    (hh : heuristicPhase metadata platform sz = Except.ok (hs, hr)) : 0 ≤ hs := by
  unfold heuristicPhase at hh
  cases hma : metadataAudit metadata with
  | error e => rw [hma] at hh; cases hh
  | ok pair =>
    rw [hma] at hh
    cases hh
    have h1 := metadataAudit_fst_nonneg metadata pair.1 pair.2 (by rw [hma])
    have h2 := geometryAudit_fst_nonneg platform sz
    omega

lemma mem_jsSetDedupGo (l : List String) :
    ∀ (seen : List String) (a : String), a ∈ jsSetDedupGo seen l ↔ a ∈ l ∧ a ∉ seen := by
  induction l with
  | nil => intro seen a; simp [jsSetDedupGo]
  | cons x xs ih =>
    intro seen a
    by_cases hx : x ∈ seen
    · rw [jsSetDedupGo, if_pos hx, ih]
      constructor
      · rintro ⟨h1, h2⟩
        exact ⟨List.mem_cons_of_mem _ h1, h2⟩
      · rintro ⟨h1, h2⟩
        rcases List.mem_cons.1 h1 with rfl | h1
        · exact absurd hx h2
        · exact ⟨h1, h2⟩
    · rw [jsSetDedupGo, if_neg hx]
      constructor
      · intro h
        rcases List.mem_cons.1 h with rfl | h
        · exact ⟨List.mem_cons_self _ _, hx⟩
        · rw [ih] at h
          refine ⟨List.mem_cons_of_mem _ h.1, fun hc => h.2 (List.mem_cons_of_mem _ hc)⟩
      · rintro ⟨h1, h2⟩
        rcases List.mem_cons.1 h1 with rfl | h1
        · exact List.mem_cons_self _ _
        · by_cases hax : a = x
          · subst hax; exact List.mem_cons_self _ _
          · refine List.mem_cons_of_mem _ ?_
            rw [ih]
            exact ⟨h1, fun hc => by
              rcases List.mem_cons.1 hc with h | h
              · exact hax h
              · exact h2 h⟩

lemma nodup_jsSetDedupGo (l : List String) :
    ∀ seen : List String, (jsSetDedupGo seen l).Nodup := by
  induction l with
  | nil => intro seen; simp [jsSetDedupGo]
  | cons x xs ih =>
    intro seen
    by_cases hx : x ∈ seen
    · rw [jsSetDedupGo, if_pos hx]; exact ih seen
    · rw [jsSetDedupGo, if_neg hx]
      refine List.Nodup.cons ?_ (ih (x :: seen))
      intro hc
      exact ((mem_jsSetDedupGo xs (x :: seen) x).1 hc).2 (List.mem_cons_self _ _)

lemma sublist_jsSetDedupGo (l : List String) :
    ∀ seen : List String, List.Sublist (jsSetDedupGo seen l) l := by
  induction l with
  | nil => intro seen; simp [jsSetDedupGo]
  | cons x xs ih =>
    intro seen
    by_cases hx : x ∈ seen
    · rw [jsSetDedupGo, if_pos hx]; exact (ih seen).cons x
    · rw [jsSetDedupGo, if_neg hx]; exact (ih (x :: seen)).cons₂ x

lemma firstIdx_cons_ne (a x : String) (xs : List String) (h : a ≠ x) :
    firstIdx a (x :: xs) = firstIdx a xs + 1 := by
  rw [firstIdx, if_neg h]

lemma pairwise_firstIdx_jsSetDedupGo (l : List String) :
    ∀ seen : List String,
      List.Pairwise (fun a b => firstIdx a l < firstIdx b l) (jsSetDedupGo seen l) := by
  induction l with
  | nil => intro seen; simp [jsSetDedupGo]
  | cons x xs ih =>
    intro seen
    by_cases hx : x ∈ seen
    · rw [jsSetDedupGo, if_pos hx]
      refine (ih seen).imp_of_mem ?_
      intro a b ha hb hab
      have ha' := (mem_jsSetDedupGo xs seen a).1 ha
      have hb' := (mem_jsSetDedupGo xs seen b).1 hb
      have hax : a ≠ x := fun h => ha'.2 (h ▸ hx)
      have hbx : b ≠ x := fun h => hb'.2 (h ▸ hx)
      rw [firstIdx_cons_ne a x xs hax, firstIdx_cons_ne b x xs hbx]
      omega
    · rw [jsSetDedupGo, if_neg hx]
      refine List.pairwise_cons.2 ⟨?_, ?_⟩
      · intro b hb
        have hb' := (mem_jsSetDedupGo xs (x :: seen) b).1 hb
        have hbx : b ≠ x := fun h => hb'.2 (h ▸ List.mem_cons_self x seen)
        rw [firstIdx_cons_ne b x xs hbx, firstIdx, if_pos rfl]
        omega
      · refine (ih (x :: seen)).imp_of_mem ?_
        intro a b ha hb hab
        have ha' := (mem_jsSetDedupGo xs (x :: seen) a).1 ha
        have hb' := (mem_jsSetDedupGo xs (x :: seen) b).1 hb
        have hax : a ≠ x := fun h => ha'.2 (h ▸ List.mem_cons_self x seen)
        have hbx : b ≠ x := fun h => hb'.2 (h ▸ List.mem_cons_self x seen)
        rw [firstIdx_cons_ne a x xs hax, firstIdx_cons_ne b x xs hbx]
        omega

lemma jsSetDedup_nodup (l : List String) : (jsSetDedup l).Nodup :=
  nodup_jsSetDedupGo l []

lemma jsSetDedup_sublist (l : List String) : List.Sublist (jsSetDedup l) l :=
  sublist_jsSetDedupGo l []

lemma jsSetDedup_mem (l : List String) (a : String) : a ∈ jsSetDedup l ↔ a ∈ l := by
  rw [jsSetDedup, mem_jsSetDedupGo]
  simp

lemma jsSetDedup_pairwise (l : List String) :
    List.Pairwise (fun a b => firstIdx a l < firstIdx b l) (jsSetDedup l) :=
  pairwise_firstIdx_jsSetDedupGo l []

lemma classify_iff (hi mid s sc : Int) (hmid : mid < hi) (hhi : hi < 100)
    (hsc : sc = min s 100 ∨ sc = s) :
    ((if hi < s then RiskLevel.High else if mid < s then RiskLevel.Medium
        else RiskLevel.Low) = RiskLevel.High ↔ hi < sc) ∧
    ((if hi < s then RiskLevel.High else if mid < s then RiskLevel.Medium
        else RiskLevel.Low) = RiskLevel.Medium ↔ mid < sc ∧ sc ≤ hi) ∧
    ((if hi < s then RiskLevel.High else if mid < s then RiskLevel.Medium
        else RiskLevel.Low) = RiskLevel.Low ↔ sc ≤ mid) := by
  have hsc' : sc = min s 100 ∨ sc = s := hsc
  rcases hsc with rfl | rfl <;> rw [min_def] at * <;> split_ifs <;>
    refine ⟨?_, ?_, ?_⟩ <;> simp <;> omega

/-! ### Claims -/

/-- C1: the heuristic score accumulated by analyzeForensics (its local
heuristic phase) is the sum of exactly the independent contributions +40
(editing-tool signature), +30 (altered timestamp), +15 (EXIF/screenshot
contradiction with make or model present), +0 for GPS (informational
reason only) and +20 for a geometric mismatch of a registered platform;
the geometry rule is skipped entirely for an unknown platform, and the
reasons appear in the fixed rule order editing tool, timestamp, EXIF
contradiction, GPS, geometry. -/
theorem forensic_heuristic_contributions (md : Metadata) (sz : ImageSize) (p : String)
    (hgps : md.gpsLatitude = none ∨ md.gpsLongitude ≠ none) :
    heuristicPhase (some md) p sz =
      Except.ok
        ((if editingToolFires md then 40 else 0) + (if md.isAlteredTimestamp then 30 else 0)
           + (if exifContradictionFires md then 15 else 0)
           + (if geometryMismatchFires p sz then 20 else 0),
         (if editingToolFires md then [softwareReason (md.software.getD "")] else [])
           ++ (if md.isAlteredTimestamp then [timestampReason] else [])
           ++ (if exifContradictionFires md then [exifReason] else [])
           ++ gpsReasonsOf md
           ++ (if geometryMismatchFires p sz then [geometricMismatchReason p] else []))
      ∧ (PLATFORM_TEMPLATES p = none → geometryAudit p sz = (0, [])) := by
  constructor
  · rw [heuristicPhase_of_audit _ _ _ _ _ (metadataAudit_ok md hgps)]
    rw [softwareRule_eq, timestampRule_eq, exifRule_eq, geometryAudit_eq]
  · intro h
    unfold geometryAudit
    rw [h]

/-- Witness for C1 at a concrete input firing the first four rules. -/
theorem forensic_heuristic_contributions_witness :
    heuristicPhase
        (some { software := some "Adobe Photoshop CC", isAlteredTimestamp := true,
                hasExif := true, isScreenshot := true, make := some "Canon",
                gpsLatitude := some (19.076 : ℚ), gpsLongitude := some (72.8777 : ℚ) })
        "General" ⟨1080, 1920⟩ =
      Except.ok (85, [softwareReason "Adobe Photoshop CC", timestampReason, exifReason,
                      gpsReason (19.076 : ℚ) (72.8777 : ℚ)]) := by
  rw [(forensic_heuristic_contributions
    { software := some "Adobe Photoshop CC", isAlteredTimestamp := true,
      hasExif := true, isScreenshot := true, make := some "Canon",
      gpsLatitude := some (19.076 : ℚ), gpsLongitude := some (72.8777 : ℚ) }
    ⟨1080, 1920⟩ "General" (Or.inr (by simp))).1]
  rfl

/-- C2: when a deep-vision result is available, the returned score is the
clamp to 100 of max(heuristicScore, aiScore) — the two scores are never
summed or averaged. -/
theorem forensic_merge_max (m : ScanMode) (metadata : Option Metadata) (sz : ImageSize)
    (c p : String) (ai : AiForensicResult) (hs : Int) (hr : List String)
    (hh : heuristicPhase metadata p sz = Except.ok (hs, hr)) (r : ScanResult)
    (hres : analyzeForensics m metadata sz c p (DeepVision.ok ai) = Except.ok r) :
    r.score = min (max hs (jsNumOr ai.aiScore 0)) 100 := by
  rw [analyzeForensics_ai_eq m metadata sz c p ai hs hr hh] at hres
  cases hres
  rfl

/-- Witness for C2: heuristic score 55 with aiScore 50 yields 55. -/
theorem forensic_merge_max_witness :
    ({ riskLevel := RiskLevel.Medium, score := 55,
       explanation := "Forensic vision audit complete.",
       reasons := [softwareReason "canva", exifReason],
       advice := ["Cross-verify this Transaction ID in your banking app.",
                  "Check for blurred edges around the currency symbol.",
                  "Check if the fonts are consistent across the entire screen."],
       layoutCheck := some "Suspicious", anomalies := some [] } : ScanResult).score
      = min (max 55 (jsNumOr (some 50) 0)) 100 :=
  forensic_merge_max ScanMode.image
    (some { software := some "canva", hasExif := true, isScreenshot := true,
            make := some "X" })
    ⟨1000, 1000⟩ "IN" "General" { aiScore := some 50 } 55
    [softwareReason "canva", exifReason] (by rfl) _ (by rfl)

/-- C4: with no deep-vision result (no image, or the gateway call
failed), the returned score is the heuristic score (clamped at 100),
layoutCheck is derived purely from that score (Failed above 60,
Suspicious above 25, else Passed), and the anomalies list is empty. -/
theorem forensic_fallback_branch (m : ScanMode) (metadata : Option Metadata)
    (sz : ImageSize) (c p : String) (dv : DeepVision)
    (hdv : dv = DeepVision.noImage ∨ dv = DeepVision.failed)
    (hs : Int) (hr : List String)
    (hh : heuristicPhase metadata p sz = Except.ok (hs, hr))
    (r : ScanResult) (hres : analyzeForensics m metadata sz c p dv = Except.ok r) :
    r.score = min hs 100 ∧
    r.layoutCheck =
      some (if 60 < hs then "Failed" else if 25 < hs then "Suspicious" else "Passed") ∧
    r.anomalies = some [] := by
  rw [analyzeForensics_fallback_eq m metadata sz c p dv hdv hs hr hh] at hres
  cases hres
  exact ⟨rfl, rfl, rfl⟩

/-- Witness for C4 at heuristic score 45: layoutCheck Suspicious. -/
theorem forensic_fallback_branch_witness :
    ({ riskLevel := RiskLevel.Medium, score := 45,
       explanation := "Basic heuristic forensic audit complete.",
       reasons := [timestampReason, exifReason],
       advice := ["Verify the transaction manually.", "Check for editing artifacts."],
       layoutCheck := some "Suspicious", anomalies := some [] } : ScanResult).score
        = min 45 100 ∧
    ({ riskLevel := RiskLevel.Medium, score := 45,
       explanation := "Basic heuristic forensic audit complete.",
       reasons := [timestampReason, exifReason],
       advice := ["Verify the transaction manually.", "Check for editing artifacts."],
       layoutCheck := some "Suspicious", anomalies := some [] } : ScanResult).layoutCheck
        = some "Suspicious" ∧
    ({ riskLevel := RiskLevel.Medium, score := 45,
       explanation := "Basic heuristic forensic audit complete.",
       reasons := [timestampReason, exifReason],
       advice := ["Verify the transaction manually.", "Check for editing artifacts."],
       layoutCheck := some "Suspicious", anomalies := some [] } : ScanResult).anomalies
        = some [] :=
  forensic_fallback_branch ScanMode.image
    (some { isAlteredTimestamp := true, hasExif := true, isScreenshot := true,
            make := some "Canon" })
    ⟨1, 1⟩ "IN" "General" DeepVision.noImage (Or.inl rfl) 45
    [timestampReason, exifReason] (by rfl) _ (by rfl)

/-- C10: merging with a deep-vision result can only raise, never lower,
the locally computed heuristic score: every returned forensic score is at
least min(heuristic score, 100), a missing aiScore being treated as 0. -/
theorem forensic_merge_never_lowers (m : ScanMode) (metadata : Option Metadata)
    (sz : ImageSize) (c p : String) (dv : DeepVision) (hs : Int) (hr : List String)
    (hh : heuristicPhase metadata p sz = Except.ok (hs, hr))
    (r : ScanResult) (hres : analyzeForensics m metadata sz c p dv = Except.ok r) :
    min hs 100 ≤ r.score := by
  cases dv with
  | ok ai =>
    rw [analyzeForensics_ai_eq m metadata sz c p ai hs hr hh] at hres
    cases hres
    exact min_le_min (le_max_left _ _) le_rfl
  | noImage =>
    rw [analyzeForensics_fallback_eq m metadata sz c p _ (Or.inl rfl) hs hr hh] at hres
    cases hres
    exact le_rfl
  | failed =>
    rw [analyzeForensics_fallback_eq m metadata sz c p _ (Or.inr rfl) hs hr hh] at hres
    cases hres
    exact le_rfl

/-- Witness for C10 on the failed-gateway branch at heuristic score 30. -/
theorem forensic_merge_never_lowers_witness :
    min (30 : Int) 100 ≤
      ({ riskLevel := RiskLevel.Low, score := 30,
         explanation := "Basic heuristic forensic audit complete.",
         reasons := [timestampReason],
         advice := ["Verify the transaction manually.", "Check for editing artifacts."],
         layoutCheck := some "Suspicious", anomalies := some [] } : ScanResult).score :=
  forensic_merge_never_lowers ScanMode.image (some { isAlteredTimestamp := true })
    ⟨1, 1⟩ "IN" "General" DeepVision.failed 30 [timestampReason] (by rfl) _ (by rfl)

/-- C3: risk-level classification is mode-specific: text, link and the
AI-assisted forensic branch use High above 70 / Medium above 35 / else
Low, while the forensic heuristic-only fallback uses High above 65 /
Medium above 30 / else Low; the two tables are distinct. -/
theorem riskLevel_thresholds_by_mode :
    (∀ t c gw, mainThresholds (analyzeText t c gw)) ∧
    (∀ u c gw, mainThresholds (analyzeLink u c gw)) ∧
    (∀ (m : ScanMode) (metadata : Option Metadata) (sz : ImageSize) (c p : String)
        (ai : AiForensicResult) (r : ScanResult),
        analyzeForensics m metadata sz c p (DeepVision.ok ai) = Except.ok r →
        mainThresholds r) ∧
    (∀ (m : ScanMode) (metadata : Option Metadata) (sz : ImageSize) (c p : String)
        (dv : DeepVision) (r : ScanResult),
        (dv = DeepVision.noImage ∨ dv = DeepVision.failed) →
        analyzeForensics m metadata sz c p dv = Except.ok r →
        fallbackThresholds r) := by
  refine ⟨?_, ?_, ?_, ?_⟩
  · intro t c gw
    unfold analyzeText
    by_cases ht : jsTrimEmpty t = true
    · rw [if_pos ht]
      unfold mainThresholds
      refine ⟨by decide, by decide, by decide⟩
    · rw [if_neg ht]
      cases gw with
      | ok ai =>
        unfold mainThresholds
        exact classify_iff 70 35 (jsNumOr ai.score 0) _ (by decide) (by decide) (Or.inl rfl)
      | error e =>
        show mainThresholds ⟨RiskLevel.Low, 0, "Analysis failed.", [], [], none, none⟩
        unfold mainThresholds
        refine ⟨by decide, by decide, by decide⟩
  · intro u c gw
    cases gw with
    | ok ai =>
      unfold analyzeLink mainThresholds
      exact classify_iff 70 35 (jsNumOr ai.score 0) _ (by decide) (by decide) (Or.inr rfl)
    | error e =>
      show mainThresholds ⟨RiskLevel.Low, 0, "Link analysis failed.", [], [], none, none⟩
      unfold mainThresholds
      refine ⟨by decide, by decide, by decide⟩
  · intro m metadata sz c p ai r hres
    cases hh : heuristicPhase metadata p sz with
    | error e =>
      rw [analyzeForensics_err m metadata sz c p _ e hh] at hres
      cases hres
    | ok pair =>
      obtain ⟨hs, hr⟩ := pair
      rw [analyzeForensics_ai_eq m metadata sz c p ai hs hr hh] at hres
      cases hres
      unfold mainThresholds
      exact classify_iff 70 35 (max hs (jsNumOr ai.aiScore 0)) _ (by decide) (by decide)
        (Or.inl rfl)
  · intro m metadata sz c p dv r hdv hres
    cases hh : heuristicPhase metadata p sz with
    | error e =>
      rw [analyzeForensics_err m metadata sz c p _ e hh] at hres
      cases hres
    | ok pair =>
      obtain ⟨hs, hr⟩ := pair
      rw [analyzeForensics_fallback_eq m metadata sz c p dv hdv hs hr hh] at hres
      cases hres
      unfold fallbackThresholds
      exact classify_iff 65 30 hs _ (by decide) (by decide) (Or.inl rfl)

/-- Witness for C3: a text success at score 80 is High, and a forensic
fallback at heuristic score 70 is High under the 65/30 table (the main
table would make 70 only Medium). -/
theorem riskLevel_thresholds_by_mode_witness :
    mainThresholds
      (analyzeText "hello" "IN" (Except.ok { score := some 80, explanation := "e" })) ∧
    fallbackThresholds
      { riskLevel := RiskLevel.High, score := 70,
        explanation := "Basic heuristic forensic audit complete.",
        reasons := [softwareReason "photoshop", timestampReason],
        advice := ["Verify the transaction manually.", "Check for editing artifacts."],
        layoutCheck := some "Failed", anomalies := some [] } :=
  ⟨riskLevel_thresholds_by_mode.1 "hello" "IN" _,
   riskLevel_thresholds_by_mode.2.2.2 ScanMode.image
     (some { software := some "photoshop", isAlteredTimestamp := true })
     ⟨1, 1⟩ "IN" "General" DeepVision.noImage _ (Or.inl rfl) (by rfl)⟩

/-- C5 counterexample: the link path returns the gateway score without
any clamp, so a gateway score of 150 is returned as 150 > 100 — the
claimed [0, 100] invariant fails on the link construction path. -/
theorem link_score_unclamped_cex :
    100 < (analyzeLink "https://example.com" "IN" (Except.ok { score := some 150 })).score := by
  decide

/-- C5 amended: only the forensic paths are clamped to [0, 100]; the
text path is clamped above at 100 but passes a negative gateway score
through, and the link path returns the gateway score entirely unclamped
(0 on gateway failure). -/
theorem score_range_amended :
    (∀ (m : ScanMode) (metadata : Option Metadata) (sz : ImageSize) (c p : String)
        (dv : DeepVision) (r : ScanResult),
        analyzeForensics m metadata sz c p dv = Except.ok r →
        0 ≤ r.score ∧ r.score ≤ 100) ∧
    (∀ t c gw, (analyzeText t c gw).score ≤ 100) ∧
    (∀ u c ai, (analyzeLink u c (Except.ok ai)).score = jsNumOr ai.score 0) ∧
    (∀ u c (e : Unit), (analyzeLink u c (Except.error e)).score = 0) ∧
    (analyzeText "hello" "IN" (Except.ok { score := some (-5), explanation := "e" })).score
      = -5 := by
  refine ⟨?_, ?_, fun u c ai => rfl, fun u c e => rfl, rfl⟩
  · intro m metadata sz c p dv r hres
    cases hh : heuristicPhase metadata p sz with
    | error e =>
      rw [analyzeForensics_err m metadata sz c p _ e hh] at hres
      cases hres
    | ok pair =>
      obtain ⟨hs, hr⟩ := pair
      have h0 : 0 ≤ hs := heuristicPhase_fst_nonneg metadata p sz hs hr hh
      cases dv with
      | ok ai =>
        rw [analyzeForensics_ai_eq m metadata sz c p ai hs hr hh] at hres
        cases hres
        exact ⟨le_min (le_trans h0 (le_max_left _ _)) (by decide), min_le_right _ _⟩
      | noImage =>
        rw [analyzeForensics_fallback_eq m metadata sz c p _ (Or.inl rfl) hs hr hh] at hres
        cases hres
        exact ⟨le_min h0 (by decide), min_le_right _ _⟩
      | failed =>
        rw [analyzeForensics_fallback_eq m metadata sz c p _ (Or.inr rfl) hs hr hh] at hres
        cases hres
        exact ⟨le_min h0 (by decide), min_le_right _ _⟩
  · intro t c gw
    unfold analyzeText
    by_cases ht : jsTrimEmpty t = true
    · rw [if_pos ht]; decide
    · rw [if_neg ht]
      cases gw with
      | ok ai => exact min_le_right _ _
      | error e =>
        show (0 : Int) ≤ 100
        decide

/-- Witness for C5 amended, applying the forensic range at a heuristic
score of 40 (editing-tool rule only). -/
theorem score_range_amended_witness :
    (0 : Int) ≤
        ({ riskLevel := RiskLevel.Medium, score := 40,
           explanation := "Basic heuristic forensic audit complete.",
           reasons := [softwareReason "MS Paint"],
           advice := ["Verify the transaction manually.", "Check for editing artifacts."],
           layoutCheck := some "Suspicious", anomalies := some [] } : ScanResult).score ∧
      ({ riskLevel := RiskLevel.Medium, score := 40,
         explanation := "Basic heuristic forensic audit complete.",
         reasons := [softwareReason "MS Paint"],
         advice := ["Verify the transaction manually.", "Check for editing artifacts."],
         layoutCheck := some "Suspicious", anomalies := some [] } : ScanResult).score ≤ 100 :=
  score_range_amended.1 ScanMode.image (some { software := some "MS Paint" })
    ⟨1, 1⟩ "IN" "General" DeepVision.noImage _ (by rfl)

/-- C6 counterexample: on a link-path gateway failure the explanation is
"Link analysis failed.", not the claimed "Analysis failed.". -/
theorem link_failure_explanation_cex :
    (analyzeLink "https://example.com" "IN" (Except.error ())).explanation
        = "Link analysis failed." ∧
      "Link analysis failed." ≠ "Analysis failed." :=
  ⟨rfl, by decide⟩

/-- C6 amended: a gateway failure never propagates: the text path
returns the fixed degraded result with explanation "Analysis failed.",
the link path returns the fixed degraded result with explanation
"Link analysis failed.", and the forensic path falls back to the
heuristic-only result (identical to the no-image outcome). -/
theorem gateway_failure_degraded_amended :
    (∀ t c, jsTrimEmpty t = false →
        analyzeText t c (Except.error ()) =
          { riskLevel := RiskLevel.Low, score := 0, explanation := "Analysis failed.",
            reasons := [], advice := [], layoutCheck := none, anomalies := none }) ∧
    (∀ u c, analyzeLink u c (Except.error ()) =
        { riskLevel := RiskLevel.Low, score := 0, explanation := "Link analysis failed.",
          reasons := [], advice := [], layoutCheck := none, anomalies := none }) ∧
    (∀ (m : ScanMode) (metadata : Option Metadata) (sz : ImageSize) (c p : String),
        analyzeForensics m metadata sz c p DeepVision.failed =
          analyzeForensics m metadata sz c p DeepVision.noImage) := by
  refine ⟨?_, fun u c => rfl, ?_⟩
  · intro t c ht
    unfold analyzeText
    rw [if_neg (by rw [ht]; exact Bool.false_ne_true)]
  · intro m metadata sz c p
    cases hh : heuristicPhase metadata p sz with
    | error e =>
      rw [analyzeForensics_err m metadata sz c p _ e hh,
          analyzeForensics_err m metadata sz c p _ e hh]
    | ok pair =>
      obtain ⟨hs, hr⟩ := pair
      rw [analyzeForensics_fallback_eq m metadata sz c p _ (Or.inr rfl) hs hr hh,
          analyzeForensics_fallback_eq m metadata sz c p _ (Or.inl rfl) hs hr hh]

/-- Witness for C6 amended on the text path with a non-blank message. -/
theorem gateway_failure_degraded_amended_witness :
    analyzeText "hello" "IN" (Except.error ()) =
      { riskLevel := RiskLevel.Low, score := 0, explanation := "Analysis failed.",
        reasons := [], advice := [], layoutCheck := none, anomalies := none } :=
  gateway_failure_degraded_amended.1 "hello" "IN" (by rfl)

/-- C7 (code bug): analyzeForensics rejects — the source evaluates
metadata.gpsLongitude.toFixed(2) guarded only by gpsLatitude being
defined, so a metadata bag with gpsLatitude present and gpsLongitude
absent makes the returned promise reject with a TypeError instead of
producing a ScanResult. -/
theorem gps_missing_longitude_throws :
    analyzeForensics ScanMode.image (some { gpsLatitude := some (12.34 : ℚ) })
        ⟨1080, 1920⟩ "IN" "General" DeepVision.noImage
      = Except.error gpsUndefinedError := by
  rfl

/-- C8 counterexample: the text path passes the gateway reasons through
verbatim, so a duplicated gateway reason yields a result whose reasons
list contains duplicates. -/
theorem text_reasons_duplicates_cex :
    (analyzeText "hello" "IN"
          (Except.ok { score := some 10, explanation := "e", reasons := ["a", "a"] })).reasons
        = ["a", "a"] ∧
      ¬ (["a", "a"] : List String).Nodup :=
  ⟨rfl, by decide⟩

/-- C8 amended: only the forensic path deduplicates its reasons (exact
string equality, first-occurrence order preserved, across the
heuristic-then-AI concatenation); the text and link paths return the
gateway reasons verbatim. -/
theorem reasons_dedup_amended :
    (∀ l : List String,
        (jsSetDedup l).Nodup ∧ List.Sublist (jsSetDedup l) l ∧
        (∀ a, a ∈ jsSetDedup l ↔ a ∈ l) ∧
        List.Pairwise (fun a b => firstIdx a l < firstIdx b l) (jsSetDedup l)) ∧
    (∀ (m : ScanMode) (metadata : Option Metadata) (sz : ImageSize) (c p : String)
        (ai : AiForensicResult) (hs : Int) (hr : List String),
        heuristicPhase metadata p sz = Except.ok (hs, hr) →
        ∀ r, analyzeForensics m metadata sz c p (DeepVision.ok ai) = Except.ok r →
          r.reasons = jsSetDedup (hr ++ jsArrOr ai.aiReasons [])) ∧
    (∀ (m : ScanMode) (metadata : Option Metadata) (sz : ImageSize) (c p : String)
        (dv : DeepVision) (hs : Int) (hr : List String),
        (dv = DeepVision.noImage ∨ dv = DeepVision.failed) →
        heuristicPhase metadata p sz = Except.ok (hs, hr) →
        ∀ r, analyzeForensics m metadata sz c p dv = Except.ok r →
          r.reasons = jsSetDedup hr) ∧
    (∀ t c ai, jsTrimEmpty t = false →
        (analyzeText t c (Except.ok ai)).reasons = ai.reasons) ∧
    (∀ u c ai, (analyzeLink u c (Except.ok ai)).reasons = ai.reasons) := by
  refine ⟨?_, ?_, ?_, ?_, fun u c ai => rfl⟩
  · intro l
    exact ⟨jsSetDedup_nodup l, jsSetDedup_sublist l, jsSetDedup_mem l, jsSetDedup_pairwise l⟩
  · intro m metadata sz c p ai hs hr hh r hres
    rw [analyzeForensics_ai_eq m metadata sz c p ai hs hr hh] at hres
    cases hres
    rfl
  · intro m metadata sz c p dv hs hr hdv hh r hres
    rw [analyzeForensics_fallback_eq m metadata sz c p dv hdv hs hr hh] at hres
    cases hres
    rfl
  · intro t c ai ht
    unfold analyzeText
    rw [if_neg (by rw [ht]; exact Bool.false_ne_true)]

/-- Witness for C8 amended: an AI reply duplicating both itself and a
heuristic reason is deduplicated to first occurrences on the forensic
path. -/
theorem reasons_dedup_amended_witness :
    ({ riskLevel := RiskLevel.Low, score := 30,
       explanation := "Forensic vision audit complete.",
       reasons := [timestampReason, "AI note"],
       advice := ["Cross-verify this Transaction ID in your banking app.",
                  "Check for blurred edges around the currency symbol.",
                  "Check if the fonts are consistent across the entire screen."],
       layoutCheck := some "Suspicious", anomalies := some [] } : ScanResult).reasons
      = jsSetDedup ([timestampReason]
          ++ jsArrOr (some [timestampReason, "AI note", "AI note"]) []) :=
  reasons_dedup_amended.2.1 ScanMode.image (some { isAlteredTimestamp := true })
    ⟨1, 1⟩ "IN" "General" { aiReasons := some [timestampReason, "AI note", "AI note"] }
    30 [timestampReason] (by rfl) _ (by rfl)

/-- C9 counterexample: on a link-path gateway failure the advice list is
empty — it does not include the fixed misspellings tip. -/
theorem link_failure_advice_cex :
    ¬ ("Check for subtle misspellings in the URL."
        ∈ (analyzeLink "https://example.com" "IN" (Except.error ())).advice) := by
  decide

/-- C9 amended: the fixed misspellings tip is the advice on every
gateway success of the link path; on a gateway failure the advice list
is empty. -/
theorem link_advice_amended :
    (∀ u c ai, (analyzeLink u c (Except.ok ai)).advice
        = ["Check for subtle misspellings in the URL."]) ∧
    (∀ u c (e : Unit), (analyzeLink u c (Except.error e)).advice = []) :=
  ⟨fun u c ai => rfl, fun u c e => rfl⟩

end ScamGuard
